import Mathlib

/-!
Shallow embedding of the Employeetime task tracker sources (src/Test.py,
src/app.py, src/app_original.py): the record normalization performed by
get_tasks, the GitHub-backed storage helpers load_from_github and
github_safe_put, the default seeding in get_tasklist, and the start / finish /
cancel timer handlers.  The theorems below check the specification claims
against these definitions.
-/

/-- Model of a pandas cell value as it appears in the loaded CSV tables.
Cell.null stands for None / NaN / NaT, Cell.num for a numeric value,
Cell.str for a non-numeric text value, Cell.time for a parseable timestamp
(seconds since the epoch). -/
inductive Cell where
  | null : Cell
  | num (q : ℚ) : Cell
  | str (s : String) : Cell
  | time (t : ℤ) : Cell
deriving DecidableEq

/-- Model of pd.to_numeric with errors coerced: a numeric cell parses, every
other cell (null, non-numeric text, timestamp) coerces to None. -/
def parseNumeric : Cell → Option ℚ
  | Cell.num q => some q
  | _ => none

/-- Model of pd.to_datetime with errors coerced: a timestamp cell parses,
every other cell coerces to NaT (None). -/
def parseTime : Cell → Option ℤ
  | Cell.time t => some t
  | _ => none

/-- Model of pd.notna on a cell. -/
def cellNotNa (c : Cell) : Bool :=
  match c with
  | Cell.null => false
  | _ => true

/-- One row of the Task table, with the thirteen TASK_COLUMNS of
src/Test.py lines 28-42.  Key columns that the code compares for equality
(task_id, employee_id, employee_name) are strings; the remaining columns are
raw cells. -/
structure TaskRow where
  task_id : String
  date : Cell
  employee_id : String
  employee_name : String
  task_type_id : Cell
  task_name : Cell
  task_category : Cell
  customer : Cell
  task_description : Cell
  start_time : Cell
  end_time : Cell
  duration_minutes : Cell
  cost : Cell
deriving DecidableEq

/-- One row of the employees table (EMPLOYEE_COLUMNS of src/Test.py line 26). -/
structure Employee where
  employee_id : String
  name : String
  role : String
  hourly_rate : ℚ
deriving DecidableEq

/-- Normalization stage of get_tasks (src/Test.py lines 134-153,
src/app_original.py lines 134-158), applied to one already-reindexed row:
duration_minutes and cost are coerced to numeric with unparseable or null
values becoming 0 (to_numeric(errors coerce).fillna(0)); the date column is
parsed with coercion and NaT entries are filled from the parsed start_time;
a null task_category becomes "Uncategorized".  The start_time and end_time
columns are not touched by this stage and pass through unchanged. -/
def normalizeTask (r : TaskRow) : TaskRow :=
  { r with
    duration_minutes := Cell.num ((parseNumeric r.duration_minutes).getD 0)
    cost := Cell.num ((parseNumeric r.cost).getD 0)
    date :=
      match parseTime r.date with
      | some t => Cell.time t
      | none =>
        match parseTime r.start_time with
        | some t => Cell.time t
        | none => Cell.null
    task_category :=
      if r.task_category = Cell.null then Cell.str "Uncategorized"
      else r.task_category }

/-- The whole-table normalization of get_tasks: every loaded row is
normalized. -/
def get_tasks_norm (rows : List TaskRow) : List TaskRow :=
  rows.map normalizeTask

/-- Status column computed for the task log display (src/Test.py line 456,
src/app_original.py line 335): Completed when end_time is not NA, otherwise
Active.  It depends on end_time only. -/
def statusOf (r : TaskRow) : String :=
  if cellNotNa r.end_time then "Completed" else "Active"

/-- Outcome of one PUT request against the GitHub contents API: ok models
status 200/201, conflict models any failing status such as the 409 returned
for a stale sha. -/
inductive PutOutcome where
  | ok : PutOutcome
  | conflict : PutOutcome
deriving DecidableEq

/-- The remote GitHub file holding one table.  content is the parsed row list
of the file, or none when the path is absent (404).  version counts the
commits created so far on the file; every successful PUT creates one more
commit. -/
structure GhStore where
  content : Option (List TaskRow)
  version : Nat
deriving DecidableEq

/-- Result of github_safe_put: the boolean the function returns, the remote
store afterwards, and the number of PUT requests the call issued. -/
structure PutResult where
  success : Bool
  store : GhStore
  attempts : Nat
deriving DecidableEq

/-- Model of the safe-push helper (src/Test.py lines 87-108, identical in
src/app_original.py).  The function GETs the file once (only to learn the
current sha, which is attached to the payload when the file exists), builds
the payload from the CSV serialization of the caller df unchanged, and issues
exactly one PUT.  There is no merging of the fetched remote rows into the
payload, no comparison of the payload with the remote content, and no retry:
the outcome of the single PUT attempt (given by outcome 0) decides the
returned boolean.  A successful PUT replaces the whole remote file with the
caller rows and creates one new commit; a failed PUT leaves the remote file
unchanged and the function returns false. -/
def github_safe_put (outcome : Nat → PutOutcome) (s : GhStore)
    (df : List TaskRow) : PutResult :=
  match outcome 0 with
  | PutOutcome.ok =>
    { success := true
      store := { content := some df, version := s.version + 1 }
      attempts := 1 }
  | PutOutcome.conflict =>
    { success := false, store := s, attempts := 1 }

/-- Outcome of the GET request performed by load_from_github: a 200 answer
with the parsed rows, a 404 answer, any other HTTP error answer, or a raised
exception (timeout, auth failure, malformed response). -/
inductive FetchOutcome where
  | ok (rows : List TaskRow) : FetchOutcome
  | notFound : FetchOutcome
  | httpErr : FetchOutcome
  | exn : FetchOutcome
deriving DecidableEq

/-- Model of the loader (src/Test.py lines 61-82, identical in
src/app_original.py).  A 200 answer returns the parsed rows (already carrying
every canonical column in the model, matching the reindex step).  A 404
returns an empty table.  Any other HTTP error, and any raised exception,
displays a transient UI message and returns an empty table as well: the
returned value carries no error indication and is identical to the value
returned for an absent file, and no previously loaded data is consulted. -/
def load_from_github (f : FetchOutcome) : List TaskRow :=
  match f with
  | FetchOutcome.ok rows => rows
  | FetchOutcome.notFound => []
  | FetchOutcome.httpErr => []
  | FetchOutcome.exn => []

/-- Results of a sequence of loads, one per fetch outcome.  Each load is
computed by load_from_github alone; earlier successful results are not kept
anywhere the loader could read them back. -/
def load_sequence (fs : List FetchOutcome) : List (List TaskRow) :=
  fs.map load_from_github

/-- One row of the task-type library table (TASKLIST_COLUMNS of src/Test.py
line 27). -/
structure TaskTypeRow where
  task_type_id : String
  task_name : String
  category : String
deriving DecidableEq

/-- The default task-type rows seeded by get_tasklist (src/Test.py
lines 121-125). -/
def defaultTasklist : List TaskTypeRow :=
  [ { task_type_id := "TT_SALES_1"
      task_name := "Sales – First Contact Reply", category := "Sales" }
  , { task_type_id := "TT_SALES_2"
      task_name := "Sales – Schedule Site Survey", category := "Sales" }
  , { task_type_id := "TT_OPS_1"
      task_name := "Construction – Pull Fiber", category := "Construction" } ]

/-- The remote file holding the task-type table: the parsed rows, or none
when the path is absent. -/
structure TasklistStore where
  rows : Option (List TaskTypeRow)
deriving DecidableEq

/-- The tasklist load step of get_tasklist: an absent file loads as an empty
table (the 404 branch of load_from_github). -/
def load_tasklist (s : TasklistStore) : List TaskTypeRow :=
  s.rows.getD []

/-- Result of get_tasklist: the returned rows, the remote store afterwards,
and the number of writes the call pushed to the store. -/
structure TasklistLoad where
  rows : List TaskTypeRow
  store : TasklistStore
  writes : Nat
deriving DecidableEq

/-- Model of get_tasklist (src/Test.py lines 117-128): load the tasklist
table; when the loaded table is empty, build the default rows, push them to
the store through write_tasklist_to_github (one write), and return them;
otherwise return the loaded rows and perform no write. -/
def get_tasklist (s : TasklistStore) : TasklistLoad :=
  let df := load_tasklist s
  if df.isEmpty then
    { rows := defaultTasklist
      store := { rows := some defaultTasklist }
      writes := 1 }
  else
    { rows := df, store := s, writes := 0 }

/-- Rounding of a rational to the nearest integer with ties going to the even
integer, the rule used by the Python builtin round. -/
def roundHalfEven (q : ℚ) : ℤ :=
  if q - (⌊q⌋ : ℚ) < 1 / 2 then ⌊q⌋
  else if (1 : ℚ) / 2 < q - (⌊q⌋ : ℚ) then ⌊q⌋ + 1
  else if ⌊q⌋ % 2 = 0 then ⌊q⌋ else ⌊q⌋ + 1

/-- Model of round(x, 2) from Python over exact rationals: round half to even
at two decimal places. -/
def round2 (q : ℚ) : ℚ :=
  (roundHalfEven (q * 100) : ℚ) / 100

/-- The fresh task row built by the start handler (src/Test.py lines 258-272):
a new task_id, the date and start_time taken from the clock, the employee
fields snapshotted from the selected employee row, and null end_time,
duration_minutes and cost. -/
def newTask (tid : String) (emp : Employee) (now : ℤ) : TaskRow :=
  { task_id := tid
    date := Cell.time now
    employee_id := emp.employee_id
    employee_name := emp.name
    task_type_id := Cell.null
    task_name := Cell.str ""
    task_category := Cell.str "Uncategorized"
    customer := Cell.str ""
    task_description := Cell.str ""
    start_time := Cell.time now
    end_time := Cell.null
    duration_minutes := Cell.null
    cost := Cell.null }

/-- Model of write_task_to_github (src/Test.py lines 160-169): refuse a
duplicate task_id, otherwise append the new row to the loaded table and push
the whole table.  The returned value is the table as written (success path of
the push). -/
def write_task_to_github (tasks : List TaskRow) (t : TaskRow) :
    Option (List TaskRow) :=
  if tasks.any (fun r => r.task_id == t.task_id) then none
  else some (tasks ++ [t])

/-- Model of the start handler (src/Test.py lines 251-277; the same guard
appears at src/app.py lines 1048-1051).  sessionActive is the session-local
st.session_state slot active_task_id of the calling session.  The submit
button is disabled exactly when that slot is set, so a start request is
refused when the calling session holds an active task id, and only then: the
stored Task table is never scanned for other active rows of the employee.
On success the handler looks the employee up by display name, builds the new
row and appends it through write_task_to_github, returning the written table
and the new task id. -/
def start_form (sessionActive : Option String) (emps : List Employee)
    (tasks : List TaskRow) (empName : String) (now : ℤ) (tid : String) :
    Option (List TaskRow × String) :=
  if sessionActive.isSome then none
  else
    match emps.find? (fun e => e.name == empName) with
    | none => none
    | some emp =>
      match write_task_to_github tasks (newTask tid emp now) with
      | none => none
      | some tasks2 => some (tasks2, tid)

/-- Number of rows of the table that are active (null end_time) for the given
employee id. -/
def activeCountFor (tasks : List TaskRow) (eid : String) : Nat :=
  (tasks.filter
    (fun r => r.employee_id == eid && r.end_time == Cell.null)).length

/-- Model of the finish handler (src/app_original.py lines 303-317; the cost
and duration arithmetic is identical in src/Test.py lines 374-428, which
additionally copies the selected task-type fields).  The handler reads the
clock, computes the elapsed minutes from the start_time of the active row,
looks up the current hourly_rate of the employee in the employees table as it
is at completion time, computes cost = round(minutes / 60 * rate, 2), and
writes end_time, duration_minutes and cost onto the row with the active task
id before pushing the whole table. -/
def finish_btn (emps : List Employee) (tasks : List TaskRow)
    (activeId : String) (endT : ℤ) : Option (List TaskRow) :=
  match tasks.find? (fun r => r.task_id == activeId) with
  | none => none
  | some active =>
    match parseTime active.start_time with
    | none => none
    | some startT =>
      match emps.find? (fun e => e.employee_id == active.employee_id) with
      | none => none
      | some emp =>
        let mins : ℚ := ((endT - startT : ℤ) : ℚ) / 60
        let c : ℚ := round2 (mins / 60 * emp.hourly_rate)
        some (tasks.map (fun r =>
          if r.task_id == activeId then
            { r with
              end_time := Cell.time endT
              duration_minutes := Cell.num mins
              cost := Cell.num c }
          else r))

/-- Model of the cancel handler (src/Test.py lines 434-437, src/app_original.py
lines 318-321): the button handler sets the session slot active_task_id to
None and reruns the page.  No delete call and no push is issued, so the
persisted Task table is returned unchanged. -/
def cancel_btn (_sessionActive : Option String) (tasks : List TaskRow) :
    Option String × List TaskRow :=
  (none, tasks)

/-- Example employee used by the concrete scenarios. -/
def aliceE : Employee :=
  { employee_id := "E1", name := "Alice", role := "Tech", hourly_rate := 20 }

/-- Example employees table with one employee. -/
def empsEx : List Employee := [aliceE]

/-- Task table after a first session started task T1 for employee E1. -/
def ts1Ex : List TaskRow := [newTask "T1" aliceE 1000]

/-- Task table after a second session started task T2 for the same employee. -/
def ts2Ex : List TaskRow := ts1Ex ++ [newTask "T2" aliceE 2000]

/-- Example completed task row A for the merge scenarios. -/
def rowA : TaskRow :=
  { newTask "TA" aliceE 0 with
    end_time := Cell.time 3600
    duration_minutes := Cell.num 60
    cost := Cell.num 20 }

/-- Example row C, added remotely by another writer between the read of the
caller and its save. -/
def rowC : TaskRow :=
  { newTask "TC" aliceE 50 with
    end_time := Cell.time 3650
    duration_minutes := Cell.num 60
    cost := Cell.num 20 }

/-- Example row B2, the row the caller is saving (a modified row B with a key
absent from the remote table). -/
def rowB2 : TaskRow :=
  { newTask "TB" aliceE 100 with
    end_time := Cell.time 3700
    duration_minutes := Cell.num 60
    cost := Cell.num 20 }

/-- Remote store holding rows A and C before the caller saves. -/
def ghRemoteAC : GhStore := { content := some [rowA, rowC], version := 1 }

/-- PUT environment in which every attempt succeeds. -/
def okOutcome : Nat → PutOutcome := fun _ => PutOutcome.ok

/-- PUT environment in which the first two attempts report a conflict and the
third succeeds (the retry scenario of the specification). -/
def conflictTwice : Nat → PutOutcome :=
  fun n => if n ≤ 1 then PutOutcome.conflict else PutOutcome.ok

/-- Task table holding one active task T1 of employee E1 started at time 0,
used by the finish scenario. -/
def tsFinEx : List TaskRow := [newTask "T1" aliceE 0]

/-- Raw task row with a null cost, a malformed duration_minutes, a null date
and malformed temporal text in start_time and end_time, used by the
normalizer scenarios. -/
def rawBad : TaskRow :=
  { newTask "TX" aliceE 0 with
    date := Cell.null
    start_time := Cell.str "also-bad"
    end_time := Cell.str "garbage"
    duration_minutes := Cell.str "12x"
    cost := Cell.null }

/-- C1.  The claim states that start fails with AlreadyActive whenever the
stored Task table already holds an active task for the employee, regardless
of session.  Counterexample: the table ts1Ex already holds one active task of
employee E1, yet a second session (whose own active_task_id slot is none)
successfully starts another task for the same employee, leaving two rows for
E1 that both have null end_time. -/
theorem c1_counterexample :
    activeCountFor ts1Ex "E1" = 1 ∧
    start_form none empsEx ts1Ex "Alice" 2000 "T2" = some (ts2Ex, "T2") ∧
    activeCountFor ts2Ex "E1" = 2 := by
  decide

/-- C1 (amended).  The start guard of the source is session-local, not
table-based: a start request is refused exactly when the active_task_id slot
of the calling session is set, and when that slot is clear the request
succeeds (for a known employee name and a fresh task id) no matter which
active rows the stored table holds for that employee. -/
theorem c1_session_local_guard (emps : List Employee) (tasks : List TaskRow)
    (empName : String) (now : ℤ) (tid : String) (sid : String)
    (emp : Employee)
    (hfind : emps.find? (fun e => e.name == empName) = some emp)
    (hfresh : tasks.any (fun r => r.task_id == tid) = false) :
    start_form (some sid) emps tasks empName now tid = none ∧
    start_form none emps tasks empName now tid =
      some (tasks ++ [newTask tid emp now], tid) := by
  constructor
  · simp [start_form]
  · simp [start_form, write_task_to_github, hfind, newTask, hfresh]

/-- Witness for c1_session_local_guard at the concrete two-session scenario. -/
theorem c1_session_local_guard_witness :
    start_form (some "T1") empsEx ts1Ex "Alice" 2000 "T2" = none ∧
    start_form none empsEx ts1Ex "Alice" 2000 "T2" =
      some (ts1Ex ++ [newTask "T2" aliceE 2000], "T2") :=
  c1_session_local_guard empsEx ts1Ex "Alice" 2000 "T2" "T1" aliceE
    (by decide) (by decide)

/-- C2.  The claim states that a save merges by primary key into the freshly
fetched remote state, preserving every remote row whose key is absent from
the caller row-set.  Counterexample: with remote rows A and C and a caller
saving rows A and B2, the written result is exactly the caller rows; row C is
in the remote table, its key TC is absent from the caller row-set, and yet C
is not preserved in the written result. -/
theorem c2_counterexample :
    rowC ∈ [rowA, rowC] ∧
    ([rowA, rowB2].map TaskRow.task_id).contains rowC.task_id = false ∧
    (github_safe_put okOutcome ghRemoteAC [rowA, rowB2]).store.content =
      some [rowA, rowB2] ∧
    rowC ∉ [rowA, rowB2] := by
  decide

/-- C2 (amended).  The save of the source is a whole-table overwrite, not a
row-granular merge: on a successful PUT the remote file is replaced by
exactly the caller row-set, so every remote row whose key is absent from the
caller rows is dropped rather than preserved. -/
theorem c2_whole_table_overwrite (outcome : Nat → PutOutcome) (s : GhStore)
    (df : List TaskRow) (h : outcome 0 = PutOutcome.ok) :
    (github_safe_put outcome s df).store.content = some df := by
  simp [github_safe_put, h]

/-- Witness for c2_whole_table_overwrite at the concrete lost-update
scenario. -/
theorem c2_whole_table_overwrite_witness :
    (github_safe_put okOutcome ghRemoteAC [rowA, rowB2]).store.content =
      some [rowA, rowB2] :=
  c2_whole_table_overwrite okOutcome ghRemoteAC [rowA, rowB2] rfl

/-- C3.  The claim states that a save whose PUT reports Conflict retries the
fetch-merge-put sequence up to 3 attempts, so that a store conflicting on the
first two attempts and succeeding on the third yields success.  In the source
the helper issues exactly one PUT and returns false on any non-2xx status:
under precisely that environment the operation reports failure after a single
attempt, and the caller change is dropped from the remote file. -/
theorem c3_counterexample :
    conflictTwice 0 = PutOutcome.conflict ∧
    conflictTwice 1 = PutOutcome.conflict ∧
    conflictTwice 2 = PutOutcome.ok ∧
    (github_safe_put conflictTwice ghRemoteAC [rowA, rowB2]).success = false ∧
    (github_safe_put conflictTwice ghRemoteAC [rowA, rowB2]).attempts = 1 ∧
    (github_safe_put conflictTwice ghRemoteAC [rowA, rowB2]).store =
      ghRemoteAC := by
  decide

/-- C3 (amended).  The source performs exactly one PUT attempt per save with
no retry loop: the call succeeds precisely when the first attempt succeeds,
and on a conflicting first attempt it reports failure immediately, leaving
the remote store unchanged. -/
theorem c3_single_attempt (outcome : Nat → PutOutcome) (s : GhStore)
    (df : List TaskRow) :
    (github_safe_put outcome s df).attempts = 1 ∧
    ((github_safe_put outcome s df).success = true ↔
      outcome 0 = PutOutcome.ok) := by
  cases h : outcome 0 <;> simp [github_safe_put, h]

/-- C4.  The claim states that a save whose content is identical to the
fetched remote content reports NoOp and performs no PUT.  Counterexample:
with the remote file already holding exactly the saved rows, the source still
issues one PUT, creates a new commit, and returns the same plain true it
returns for a changed write, with no distinct NoOp report. -/
theorem c4_counterexample :
    ghRemoteAC.content = some [rowA, rowC] ∧
    (github_safe_put okOutcome ghRemoteAC [rowA, rowC]).attempts = 1 ∧
    (github_safe_put okOutcome ghRemoteAC [rowA, rowC]).success = true ∧
    (github_safe_put okOutcome ghRemoteAC [rowA, rowC]).store.version =
      ghRemoteAC.version + 1 := by
  decide

/-- C4 (amended).  The save of the source is not idempotence-aware: even when
the saved row-set equals the current remote content, it issues exactly one
PUT, the write creates a new commit on the file, and the returned value is
the same success boolean as for a changed write, with no NoOp report. -/
theorem c4_no_noop_detection (outcome : Nat → PutOutcome) (s : GhStore)
    (df : List TaskRow) (_hsame : s.content = some df)
    (h : outcome 0 = PutOutcome.ok) :
    (github_safe_put outcome s df).attempts = 1 ∧
    (github_safe_put outcome s df).success = true ∧
    (github_safe_put outcome s df).store.version = s.version + 1 := by
  simp [github_safe_put, h]

/-- Witness for c4_no_noop_detection at the concrete identical-content
scenario. -/
theorem c4_no_noop_detection_witness :
    (github_safe_put okOutcome ghRemoteAC [rowA, rowC]).attempts = 1 ∧
    (github_safe_put okOutcome ghRemoteAC [rowA, rowC]).success = true ∧
    (github_safe_put okOutcome ghRemoteAC [rowA, rowC]).store.version =
      ghRemoteAC.version + 1 :=
  c4_no_noop_detection okOutcome ghRemoteAC [rowA, rowC] rfl rfl

/-- C5.  Finishing an active task started at T0, ninety minutes later, with
the employee of the task present in the employees table, sets on the row with
the active task id: end_time = T0 + 5400 seconds, duration_minutes = 90, and
cost = round2 of 3 / 2 times the hourly_rate read from the employees table at
completion time (the current rate, not a snapshot taken at start). -/
theorem c5_finish_cost (emps : List Employee) (tasks : List TaskRow)
    (activeId : String) (T0 : ℤ) (active : TaskRow) (emp : Employee)
    (hfind : tasks.find? (fun r => r.task_id == activeId) = some active)
    (hstart : active.start_time = Cell.time T0)
    (hemp : emps.find? (fun e => e.employee_id == active.employee_id) =
      some emp) :
    ∃ out, finish_btn emps tasks activeId (T0 + 5400) = some out ∧
      (∀ r ∈ out, r.task_id = activeId →
        r.end_time = Cell.time (T0 + 5400) ∧
        r.duration_minutes = Cell.num 90 ∧
        r.cost = Cell.num (round2 (3 / 2 * emp.hourly_rate))) ∧
      ∃ r ∈ out, r.task_id = activeId := by
  have h5400 : T0 + 5400 - T0 = (5400 : ℤ) := by ring
  have hmins : ((T0 + 5400 - T0 : ℤ) : ℚ) / 60 = 90 := by
    rw [h5400]; norm_num
  have hcost : ((T0 + 5400 - T0 : ℤ) : ℚ) / 60 / 60 * emp.hourly_rate =
      3 / 2 * emp.hourly_rate := by
    rw [hmins]; norm_num
  refine ⟨tasks.map (fun r =>
      if r.task_id == activeId then
        { r with
          end_time := Cell.time (T0 + 5400)
          duration_minutes := Cell.num 90
          cost := Cell.num (round2 (3 / 2 * emp.hourly_rate)) }
      else r), ?_, ?_, ?_⟩
  · simp only [finish_btn, hfind, hstart, parseTime, hemp]
    rw [← hmins, ← hcost]
  · intro r hr hid
    rcases List.mem_map.mp hr with ⟨a, _, rfl⟩
    by_cases hb : (a.task_id == activeId) = true
    · simp [hb]
    · simp only [hb, Bool.false_eq_true, if_false] at hid
      exact absurd (beq_iff_eq.mpr hid) (by simp [hb])
  · have hmem := List.mem_of_find?_eq_some hfind
    have hp := List.find?_some hfind
    refine ⟨_, List.mem_map_of_mem _ hmem, ?_⟩
    simp only [hp, if_true]
    exact beq_iff_eq.mp hp

/-- Witness for c5_finish_cost: employee E1 with rate 20 finishes task T1
started at time 0 at time 5400; the updated row carries duration 90 and cost
round2 of 30. -/
theorem c5_finish_cost_witness :
    ∃ out, finish_btn empsEx tsFinEx "T1" (0 + 5400) = some out ∧
      (∀ r ∈ out, r.task_id = "T1" →
        r.end_time = Cell.time (0 + 5400) ∧
        r.duration_minutes = Cell.num 90 ∧
        r.cost = Cell.num (round2 (3 / 2 * aliceE.hourly_rate))) ∧
      ∃ r ∈ out, r.task_id = "T1" :=
  c5_finish_cost empsEx tsFinEx "T1" 0 (newTask "T1" aliceE 0) aliceE
    (by decide) rfl (by decide)

/-- C6.  The claim states that cancel removes the in-progress task row from
the persisted table.  Counterexample: with table ts1Ex holding the active row
T1, the cancel handler clears only the session slot; the returned table still
contains task id T1 and the row still normalizes to status Active. -/
theorem c6_counterexample :
    (cancel_btn (some "T1") ts1Ex).1 = none ∧
    (cancel_btn (some "T1") ts1Ex).2 = ts1Ex ∧
    ((cancel_btn (some "T1") ts1Ex).2.map TaskRow.task_id).contains "T1" =
      true ∧
    statusOf (normalizeTask (newTask "T1" aliceE 1000)) = "Active" := by
  decide

/-- C6 (amended).  Cancelling only resets the session slot active_task_id to
None and leaves the persisted Task table entirely unchanged, so the cancelled
row keeps appearing in the task list (still active); no row is deleted. -/
theorem c6_cancel_leaves_table (s : Option String) (tasks : List TaskRow) :
    (cancel_btn s tasks).1 = none ∧ (cancel_btn s tasks).2 = tasks := by
  constructor <;> rfl

/-- C7.  The claim states that a fetch failing with a transport error returns
the last successfully cached row-set when one is available and signals a
distinct degraded-read condition.  Counterexample: after a successful load
returning row A, a load hitting an HTTP error returns the empty table, not
the previously loaded rows, and its result is identical to a successful read
of an absent file, so the returned value carries no degraded-read signal. -/
theorem c7_counterexample :
    load_sequence [FetchOutcome.ok [rowA], FetchOutcome.httpErr] =
      [[rowA], []] ∧
    load_from_github FetchOutcome.httpErr =
      load_from_github FetchOutcome.notFound ∧
    load_from_github FetchOutcome.exn = ([] : List TaskRow) ∧
    [rowA] ≠ ([] : List TaskRow) := by
  decide

/-- C7 (amended).  On any transport failure (non-200/404 HTTP answer or a
raised exception such as a timeout) the loader returns an empty row-set that
is indistinguishable from a successful read of an absent file; no previously
cached row-set is consulted and the only signal is a transient UI message
outside the returned value. -/
theorem c7_transport_error_empty (f : FetchOutcome)
    (h : f = FetchOutcome.httpErr ∨ f = FetchOutcome.exn) :
    load_from_github f = [] ∧
    load_from_github f = load_from_github FetchOutcome.notFound := by
  rcases h with h | h <;> simp [load_from_github, h]

/-- Witness for c7_transport_error_empty at the HTTP-error outcome. -/
theorem c7_transport_error_empty_witness :
    load_from_github FetchOutcome.httpErr = [] ∧
    load_from_github FetchOutcome.httpErr =
      load_from_github FetchOutcome.notFound :=
  c7_transport_error_empty FetchOutcome.httpErr (Or.inl rfl)

/-- C8.  Loading the task-type table from an absent or empty store returns
the non-empty default rows and pushes them to the store in exactly one write;
a subsequent load finds the seeded table, returns the same rows, performs no
further write and leaves the store unchanged. -/
theorem c8_default_seed (s : TasklistStore) (h : load_tasklist s = []) :
    (get_tasklist s).rows = defaultTasklist ∧
    (get_tasklist s).rows ≠ [] ∧
    (get_tasklist s).writes = 1 ∧
    (get_tasklist s).store.rows = some defaultTasklist ∧
    (get_tasklist (get_tasklist s).store).rows = defaultTasklist ∧
    (get_tasklist (get_tasklist s).store).writes = 0 ∧
    (get_tasklist (get_tasklist s).store).store = (get_tasklist s).store := by
  have h2 : s.rows.getD [] = [] := h
  simp [get_tasklist, load_tasklist, h2, defaultTasklist]

/-- Witness for c8_default_seed at the absent-file store. -/
theorem c8_default_seed_witness :
    (get_tasklist ⟨none⟩).rows = defaultTasklist ∧
    (get_tasklist ⟨none⟩).rows ≠ [] ∧
    (get_tasklist ⟨none⟩).writes = 1 ∧
    (get_tasklist ⟨none⟩).store.rows = some defaultTasklist ∧
    (get_tasklist (get_tasklist ⟨none⟩).store).rows = defaultTasklist ∧
    (get_tasklist (get_tasklist ⟨none⟩).store).writes = 0 ∧
    (get_tasklist (get_tasklist ⟨none⟩).store).store =
      (get_tasklist ⟨none⟩).store :=
  c8_default_seed ⟨none⟩ rfl

/-- C9.  The claim states that unparseable values in all three temporal
columns (date, start_time, end_time) become null during normalization.
Counterexample: a row whose end_time and start_time hold unparseable text
keeps that text unchanged after normalization (only the date column is
parsed-with-coercion), while the malformed duration and missing cost parts of
the claim do hold, coercing to 0. -/
theorem c9_counterexample :
    rawBad.cost = Cell.null ∧
    parseNumeric rawBad.duration_minutes = none ∧
    (normalizeTask rawBad).duration_minutes = Cell.num 0 ∧
    (normalizeTask rawBad).cost = Cell.num 0 ∧
    (normalizeTask rawBad).date = Cell.null ∧
    (normalizeTask rawBad).end_time = Cell.str "garbage" ∧
    (normalizeTask rawBad).end_time ≠ Cell.null ∧
    (normalizeTask rawBad).start_time = Cell.str "also-bad" := by
  decide

/-- C9 (amended).  Normalization is total and degrades instead of failing: a
row with a null cost and a malformed duration_minutes normalizes to
duration_minutes = 0 and cost = 0; an unparseable date (with no parseable
start_time to fall back on) becomes null; but the start_time and end_time
columns are carried through unmodified rather than parsed to null. -/
theorem c9_normalizer_tolerance (r : TaskRow)
    (hcost : r.cost = Cell.null)
    (hdur : parseNumeric r.duration_minutes = none)
    (hdate : parseTime r.date = none)
    (hst : parseTime r.start_time = none) :
    (normalizeTask r).duration_minutes = Cell.num 0 ∧
    (normalizeTask r).cost = Cell.num 0 ∧
    (normalizeTask r).date = Cell.null ∧
    (normalizeTask r).start_time = r.start_time ∧
    (normalizeTask r).end_time = r.end_time := by
  have hc2 : parseNumeric r.cost = none := by rw [hcost]; rfl
  simp [normalizeTask, hcost, hdur, hc2, hdate, hst]
  rfl

/-- Witness for c9_normalizer_tolerance at the concrete malformed row. -/
theorem c9_normalizer_tolerance_witness :
    (normalizeTask rawBad).duration_minutes = Cell.num 0 ∧
    (normalizeTask rawBad).cost = Cell.num 0 ∧
    (normalizeTask rawBad).date = Cell.null ∧
    (normalizeTask rawBad).start_time = rawBad.start_time ∧
    (normalizeTask rawBad).end_time = rawBad.end_time :=
  c9_normalizer_tolerance rawBad rfl rfl rfl rfl

/-- C10.  After the get_tasks normalization every row carries numeric,
non-null duration_minutes and cost (nulls and unparseable values coerce
to 0); the freshly started task row round-trips to duration 0, cost 0 and a
still-null end_time with status Active; and the Active / Completed
distinction is decided by end_time nullity alone. -/
theorem c10_numeric_after_load (r : TaskRow) (tid : String) (emp : Employee)
    (now : ℤ) :
    (∃ q : ℚ, (normalizeTask r).duration_minutes = Cell.num q) ∧
    (∃ q : ℚ, (normalizeTask r).cost = Cell.num q) ∧
    (normalizeTask (newTask tid emp now)).duration_minutes = Cell.num 0 ∧
    (normalizeTask (newTask tid emp now)).cost = Cell.num 0 ∧
    (normalizeTask (newTask tid emp now)).end_time = Cell.null ∧
    statusOf (normalizeTask (newTask tid emp now)) = "Active" ∧
    (statusOf (normalizeTask r) = "Completed" ↔
      cellNotNa (normalizeTask r).end_time = true) := by
  refine ⟨⟨_, rfl⟩, ⟨_, rfl⟩, ?_, ?_, ?_, ?_, ?_⟩
  · simp [normalizeTask, newTask, parseNumeric]
  · simp [normalizeTask, newTask, parseNumeric]
  · simp [normalizeTask, newTask]
  · simp [statusOf, normalizeTask, newTask, cellNotNa]
  · cases hb : cellNotNa (normalizeTask r).end_time <;> simp [statusOf, hb]
